import Mathlib

/-!
Verification of the opportunity-scoring and decision pipeline of the
product-arbitrage suite: competitor aggregation and deduplication
(`CompetitorAnalyzer.analyze_market`, `_search_google_competitors`),
pricing statistics and recommendation (`get_pricing_recommendation`),
and the discovery-test evaluation funnel
(`DiscoveryValidator.analyze_test_results`, `calculate_scale_up_budget`,
`quick_validation_check`).

Numbers are modelled as rationals; the network-facing search helpers are
modelled as functions of the record lists the sources return, since their
bodies only parse externally supplied pages.  A Python expression that can
raise `ZeroDivisionError` is modelled with `Except`.
-/

/-- A competitor record as assembled by the search sources: `title`, `url`
(the empty string models a missing url, matching `comp.get('url', '')`),
an optional `price`, and the `source` tag. -/
structure Competitor where
  title : String
  url : String
  price : Option ℚ
  source : String
deriving Repr, DecidableEq

/-- The `price_range` dictionary `{'min': ..., 'max': ...}`. -/
structure PriceRange where
  min : ℚ
  max : ℚ
deriving Repr, DecidableEq

/-- Python `int()` truncation toward zero, on a rational. -/
def pyInt (q : ℚ) : ℤ :=
  if 0 ≤ q then ⌊q⌋ else ⌈q⌉

/-- One candidate of the preferred-ending search in
`get_pricing_recommendation`: `int(recommended / 10) * 10 + ending` for the
single-digit endings, `int(recommended / 100) * 100 + ending` for the
two-digit endings. -/
def preferredCandidate (recommended : ℚ) (ending : ℤ) : ℚ :=
  if ending < 10 then ((pyInt (recommended / 10) * 10 + ending : ℤ) : ℚ)
  else ((pyInt (recommended / 100) * 100 + ending : ℤ) : ℚ)

/-- The preferred-ending rounding loop of `get_pricing_recommendation`:
`final_price` starts at `recommended`, and a candidate replaces it only when
it is strictly closer to `recommended` than the current `final_price`. -/
def roundToPreferredEnding (recommended : ℚ) : ℚ :=
  [7, 9, 97, 99].foldl
    (fun final_price ending =>
      if |preferredCandidate recommended ending - recommended|
          < |final_price - recommended| then
        preferredCandidate recommended ending
      else final_price)
    recommended

/-- Since `final_price` starts at `recommended`, the distance to beat is `0`
and no candidate is ever selected: the rounding loop is the identity. -/
theorem roundToPreferredEnding_eq_self (r : ℚ) :
    roundToPreferredEnding r = r := by
  have h : ∀ e : ℤ, ¬ |preferredCandidate r e - r| < |r - r| := by
    intro e
    rw [sub_self, abs_zero]
    exact not_lt.mpr (abs_nonneg _)
  unfold roundToPreferredEnding
  simp only [List.foldl_cons, List.foldl_nil]
  rw [if_neg (h 7), if_neg (h 9), if_neg (h 97), if_neg (h 99)]

/-- The record returned by `get_pricing_recommendation`.  The rationale
string is modelled by the signed percentage
`(avg_price - final_price) / avg_price * 100` that is interpolated into it. -/
structure PricingRec where
  recommended_price : ℚ
  competitor_avg : ℚ
  competitor_range : PriceRange
  rationale_pct : ℚ
deriving Repr, DecidableEq

/-- Model of `CompetitorAnalyzer.get_pricing_recommendation`.  The first two inputs
model `competitor_analysis.get('avg_price', 27)` and
`competitor_analysis.get('price_range', {'min': 17, 'max': 47})`.
`Except.error` models the `ZeroDivisionError` raised while formatting the
rationale when `avg_price == 0` (Python raises exactly when the divisor is
zero). -/
def get_pricing_recommendation (avg_price? : Option ℚ)
    (price_range? : Option PriceRange) (market_multiplier : ℚ) :
    Except String PricingRec :=
  let avg_price := avg_price?.getD 27
  let recommended := if 0 < avg_price then avg_price * (85 / 100) else 27
  let recommended := recommended * market_multiplier
  let final_price := roundToPreferredEnding recommended
  if avg_price = 0 then Except.error "ZeroDivisionError"
  else
    Except.ok
      { recommended_price := final_price
        competitor_avg := avg_price
        competitor_range := price_range?.getD ⟨17, 47⟩
        rationale_pct := (avg_price - final_price) / avg_price * 100 }

/-- C1: for `avg_price = 30`, `market_multiplier = 1.0` the claim says the
recommended price ends in 7, 9, 97 or 99, nearest to 25.5.  The code instead
returns the unrounded 25.5 itself: the loop's `final_price` starts at
`recommended`, so no candidate is strictly closer and the preferred-ending
selection never fires. -/
theorem pricing_rounding_loop_is_noop_at_30 :
    get_pricing_recommendation (some 30) none 1 =
      Except.ok ⟨51 / 2, 30, ⟨17, 47⟩, 15⟩ := by
  simp only [get_pricing_recommendation, Option.getD_some, Option.getD_none,
    roundToPreferredEnding_eq_self]
  norm_num

/-- C4: with `avg_price` present but zero the code substitutes the default 27
for the recommended price, yet the rationale f-string divides by `avg_price`
and raises `ZeroDivisionError`; with `avg_price` absent the default 27 flows
through everywhere and a complete record is returned. -/
theorem pricing_zero_avg_division_error :
    get_pricing_recommendation (some 0) none 1 = Except.error "ZeroDivisionError"
    ∧ get_pricing_recommendation none none 1 =
        Except.ok ⟨459 / 20, 27, ⟨17, 47⟩, 15⟩ := by
  constructor
  · simp only [get_pricing_recommendation, Option.getD_some]
    norm_num
  · simp only [get_pricing_recommendation, Option.getD_none,
      roundToPreferredEnding_eq_self]
    norm_num

/-- The url-deduplication loop of `_search_google_competitors`:
`if url and url not in seen_urls` — a record is kept only when its url is
non-empty (Python truthiness) and was not seen before. -/
def dedupByUrl : List String → List Competitor → List Competitor
  | _, [] => []
  | seen, c :: rest =>
    if c.url ≠ "" ∧ c.url ∉ seen then c :: dedupByUrl (c.url :: seen) rest
    else dedupByUrl seen rest

/-- The collection loop of `_search_google_competitors`: the result list of
each search variation is appended in turn, and the loop breaks as soon as
`max_results` records have accumulated.  A variation whose search raised is
modelled by an empty result list (the `except` clause just continues). -/
def collectResults (max_results : ℕ) :
    List Competitor → List (List Competitor) → List Competitor
  | acc, [] => acc
  | acc, r :: rs =>
    if max_results ≤ (acc ++ r).length then acc ++ r
    else collectResults max_results (acc ++ r) rs

/-- Model of `_search_google_competitors`, as a function of the per-search-variation
result lists returned by `_google_search` (the code queries at most the
first three of the generated search terms), followed by url deduplication
and the `[:max_results]` truncation. -/
def search_google_competitors (searchResults : List (List Competitor))
    (max_results : ℕ) : List Competitor :=
  (dedupByUrl [] (collectResults max_results [] (searchResults.take 3))).take
    max_results

/-- Model of `_calculate_saturation`. -/
def calculate_saturation (num_competitors : ℕ) : String :=
  if num_competitors < 5 then "very_low"
  else if num_competitors < 10 then "low"
  else if num_competitors < 20 then "medium"
  else if num_competitors < 40 then "high"
  else "very_high"

/-- Model of `_calculate_opportunity_score`: start from 10, subtract the competition
penalty, add the pricing bonuses, clamp to `[0, 10]`. -/
def calculate_opportunity_score (num_competitors : ℕ) (avg_price : ℚ) : ℚ :=
  let score : ℚ := 10
  let score := score -
    (if num_competitors < 5 then 0
     else if num_competitors < 10 then 1
     else if num_competitors < 20 then 3
     else if num_competitors < 40 then 5
     else 7)
  let score :=
    if 0 < avg_price then
      if avg_price < 20 then score + 1
      else if 50 < avg_price then score + 1
      else score
    else score
  max 0 (min score 10)

/-- The price list `[c['price'] for c in competitors if c.get('price')]`:
a price participates only when it is present and non-zero (Python
truthiness of the optional number). -/
def truthyPrices (competitors : List Competitor) : List ℚ :=
  competitors.filterMap fun c =>
    match c.price with
    | some p => if p ≠ 0 then some p else none
    | none => none

/-- Python `min` over a non-empty list; the default for `[]` is never used
because `analyze_market` guards with `if prices:`. -/
def listMin : List ℚ → ℚ
  | [] => 999
  | p :: ps => ps.foldl min p

/-- Python `max` over a non-empty list; the default for `[]` is never used
because `analyze_market` guards with `if prices:`. -/
def listMax : List ℚ → ℚ
  | [] => 0
  | p :: ps => ps.foldl max p

/-- The analysis dictionary built by `analyze_market` (the fields carrying
numeric or decision content; `niche`, `language`, `dialect`, `timestamp`
and `common_formats` are caller echoes or left untouched). -/
structure MarketAnalysis where
  competitors : List Competitor
  total_found : ℕ
  avg_price : ℚ
  price_range : PriceRange
  market_saturation : String
  opportunity_score : ℚ
deriving Repr, DecidableEq

/-- Model of `CompetitorAnalyzer.analyze_market`, as a function of the record lists
the two external sources return: `googleResults` are the per-search-term
lists consumed by `_search_google_competitors`, `gumroadResults` is the
list returned by `_search_gumroad`.  Mirrors the code exactly:
`total_found` is set to the length of the Google list before the Gumroad
records are appended, Gumroad records are neither deduplicated nor counted
against `max_competitors`, and the price statistics replace the initial
sentinels `avg_price = 0`, `price_range = {'min': 999, 'max': 0}` only when
at least one truthy price exists. -/
def analyze_market (googleResults : List (List Competitor))
    (gumroadResults : List Competitor) (max_competitors : ℕ) :
    MarketAnalysis :=
  let googleCompetitors := search_google_competitors googleResults max_competitors
  let total_found := googleCompetitors.length
  let competitors := googleCompetitors ++ gumroadResults
  let prices := truthyPrices competitors
  let avg_price : ℚ := if prices = [] then 0 else prices.sum / prices.length
  let price_range : PriceRange :=
    if prices = [] then ⟨999, 0⟩ else ⟨listMin prices, listMax prices⟩
  { competitors := competitors
    total_found := total_found
    avg_price := avg_price
    price_range := price_range
    market_saturation := calculate_saturation competitors.length
    opportunity_score := calculate_opportunity_score competitors.length avg_price }

/-- The deduplication loop only ever drops records, in order: its output is
a sublist of its input. -/
theorem dedupByUrl_sublist (seen : List String) (l : List Competitor) :
    List.Sublist (dedupByUrl seen l) l := by
  induction l generalizing seen with
  | nil => simp [dedupByUrl]
  | cons c rest ih =>
    rw [dedupByUrl]
    split
    · exact List.Sublist.cons₂ c (ih _)
    · exact List.Sublist.cons c (ih _)

/-- Invariant of the deduplication loop: the kept records have pairwise
distinct urls, and every kept record has a non-empty url not in `seen`. -/
theorem dedupByUrl_invariant (seen : List String) (l : List Competitor) :
    ((dedupByUrl seen l).map Competitor.url).Nodup
    ∧ ∀ c ∈ dedupByUrl seen l, c.url ≠ "" ∧ c.url ∉ seen := by
  induction l generalizing seen with
  | nil => simp [dedupByUrl]
  | cons c rest ih =>
    rw [dedupByUrl]
    split
    · next h =>
      obtain ⟨hne, hnotin⟩ := h
      obtain ⟨ihnodup, ihmem⟩ := ih (c.url :: seen)
      refine ⟨?_, ?_⟩
      · rw [List.map_cons, List.nodup_cons]
        refine ⟨?_, ihnodup⟩
        intro hmem
        obtain ⟨d, hd, hdurl⟩ := List.mem_map.mp hmem
        exact (ihmem d hd).2 (by rw [hdurl]; exact List.mem_cons_self _ _)
      · intro d hd
        rcases List.mem_cons.mp hd with rfl | hd'
        · exact ⟨hne, hnotin⟩
        · exact ⟨(ihmem d hd').1,
            fun hs => (ihmem d hd').2 (List.mem_cons_of_mem _ hs)⟩
    · exact ih seen

/-- The collection loop returns (in order) records drawn from the flattened
source results, appended after the accumulator. -/
theorem collectResults_sublist (max_results : ℕ) (rs : List (List Competitor))
    (acc : List Competitor) :
    List.Sublist (collectResults max_results acc rs) (acc ++ rs.flatten) := by
  induction rs generalizing acc with
  | nil => simp [collectResults]
  | cons r rs ih =>
    rw [collectResults]
    split
    · rw [List.flatten_cons, ← List.append_assoc]
      exact List.sublist_append_left _ _
    · rw [List.flatten_cons, ← List.append_assoc]
      exact ih (acc ++ r)

/-- A Gumroad record used in concrete evaluations. -/
def gumroadSample : Competitor :=
  ⟨"Sample Guide", "https://gumroad.com/l/sample", none, "gumroad"⟩

/-- C2: `total_found` is set to the length of the Google result list before
the Gumroad records are appended and is never updated, so with no Google
results and one Gumroad product the analysis reports `total_found = 0` while
`competitors` has length 1. -/
theorem total_found_excludes_gumroad :
    (analyze_market [] [gumroadSample] 20).total_found = 0
    ∧ (analyze_market [] [gumroadSample] 20).competitors.length = 1 := by
  constructor <;> rfl

/-- A Google record and a Gumroad record sharing the same (non-empty) url. -/
def googleDup : Competitor := ⟨"Offer", "https://dup.example/p", none, "google"⟩

/-- Gumroad twin of `googleDup`, same url. -/
def gumroadDup : Competitor :=
  ⟨"Offer (Gumroad)", "https://dup.example/p", none, "gumroad"⟩

/-- C3 counterexample: the final list of `analyze_market` is not
deduplicated across sources — a Google record and a Gumroad record with the
same non-empty url both survive — and the Gumroad records are not counted
against `max_competitors`: with `max_competitors = 0` the final list still
has length 1. -/
theorem dedup_cap_fail_across_sources :
    ((analyze_market [[googleDup]] [gumroadDup] 20).competitors.map
        Competitor.url)
      = ["https://dup.example/p", "https://dup.example/p"]
    ∧ ("https://dup.example/p" != "") = true
    ∧ (analyze_market [] [gumroadSample] 0).competitors.length = 1 := by
  refine ⟨rfl, by decide, rfl⟩

/-- C3 amended: only the Google-source portion is deduplicated by url,
order-preserving, and capped at `max_competitors`; the Gumroad records are
appended afterwards, bypassing both the deduplication and the cap. -/
theorem google_dedup_cap_order_gumroad_appended
    (googleResults : List (List Competitor)) (gumroadResults : List Competitor)
    (max_competitors : ℕ) :
    (analyze_market googleResults gumroadResults max_competitors).competitors
      = search_google_competitors googleResults max_competitors ++ gumroadResults
    ∧ (search_google_competitors googleResults max_competitors).length
        ≤ max_competitors
    ∧ ((search_google_competitors googleResults max_competitors).map
        Competitor.url).Nodup
    ∧ List.Sublist (search_google_competitors googleResults max_competitors)
        ((googleResults.take 3).flatten) := by
  refine ⟨rfl, ?_, ?_, ?_⟩
  · unfold search_google_competitors
    rw [List.length_take]
    exact min_le_left _ _
  · have h := (dedupByUrl_invariant []
      (collectResults max_competitors [] (googleResults.take 3))).1
    exact List.Nodup.sublist (List.Sublist.map _ (List.take_sublist _ _)) h
  · exact ((List.take_sublist _ _).trans (dedupByUrl_sublist _ _)).trans
      (by simpa using collectResults_sublist max_competitors (googleResults.take 3) [])

/-- A Google record with an empty url. -/
def urlless : Competitor := ⟨"No Link", "", none, "google"⟩

/-- C6 counterexample: a Google-source record with an empty url is removed
outright by the deduplication loop (`if url and url not in seen_urls`), so it
does not remain in the aggregated list, contrary to the always-unique
treatment the claim describes. -/
theorem urlless_google_record_dropped :
    (analyze_market [[urlless]] [] 20).competitors = [] := rfl

/-- C6 amended: every record surviving the Google deduplication has a
non-empty url — url-less Google records are dropped, not kept as
always-unique — while Gumroad records bypass deduplication entirely, so
url-less Gumroad records all remain in the aggregated list. -/
theorem urlless_kept_only_from_gumroad
    (googleResults : List (List Competitor)) (gumroadResults : List Competitor)
    (max_competitors : ℕ) :
    ((search_google_competitors googleResults max_competitors).all
        fun c => c.url != "") = true
    ∧ (analyze_market googleResults gumroadResults max_competitors).competitors
        = search_google_competitors googleResults max_competitors
            ++ gumroadResults := by
  refine ⟨?_, rfl⟩
  rw [List.all_eq_true]
  intro c hc
  have h := (dedupByUrl_invariant []
    (collectResults max_competitors [] (googleResults.take 3))).2
  have hmem : c ∈ dedupByUrl []
      (collectResults max_competitors [] (googleResults.take 3)) :=
    (List.take_sublist _ _).subset hc
  simpa using (h c hmem).1

/-- Auxiliary: a left fold of `min` is bounded by its initial value. -/
theorem foldl_min_le_init (l : List ℚ) (a : ℚ) : l.foldl min a ≤ a := by
  induction l generalizing a with
  | nil => exact le_refl a
  | cons b bs ih => exact le_trans (ih (min a b)) (min_le_left a b)

/-- Auxiliary: a left fold of `max` dominates its initial value. -/
theorem init_le_foldl_max (l : List ℚ) (a : ℚ) : a ≤ l.foldl max a := by
  induction l generalizing a with
  | nil => exact le_refl a
  | cons b bs ih => exact le_trans (le_max_left a b) (ih (max a b))

/-- Python `min(prices) ≤ max(prices)` on a non-empty list. -/
theorem listMin_le_listMax (ps : List ℚ) (h : ps ≠ []) :
    listMin ps ≤ listMax ps := by
  cases ps with
  | nil => exact absurd rfl h
  | cons p ps =>
    exact le_trans (foldl_min_le_init ps p) (init_le_foldl_max ps p)

/-- A Gumroad record carrying a present zero price. -/
def zeroPriced : Competitor := ⟨"Zero", "https://zero.example/p", some 0, "gumroad"⟩

/-- C5 counterexample: a competitor whose price is present but equal to `0`
is dropped by the truthiness filter `if c.get('price')`, so the price range
keeps the initial sentinel `{'min': 999, 'max': 0}` — not the `{0, 0}` the
claim describes — and `min ≤ max` fails even though a priced competitor
exists. -/
theorem present_zero_price_range_unchanged :
    ((analyze_market [] [zeroPriced] 20).competitors.map Competitor.price)
      = [some 0]
    ∧ (analyze_market [] [zeroPriced] 20).price_range = ⟨999, 0⟩
    ∧ (analyze_market [] [zeroPriced] 20).price_range.max
        < (analyze_market [] [zeroPriced] 20).price_range.min := by
  refine ⟨rfl, ?_, ?_⟩
  · norm_num [analyze_market, truthyPrices, zeroPriced,
      search_google_competitors, collectResults, dedupByUrl]
  · norm_num [analyze_market, truthyPrices, zeroPriced,
      search_google_competitors, collectResults, dedupByUrl]

/-- C5 amended: prices equal to `0` count as absent (Python truthiness).
With no truthy price, `avg_price = 0` and the price range keeps the initial
sentinel `{'min': 999, 'max': 0}`; with at least one truthy price,
`avg_price` is the arithmetic mean of the truthy prices and
`price_range.min ≤ price_range.max`. -/
theorem price_stats_truthy (googleResults : List (List Competitor))
    (gumroadResults : List Competitor) (max_competitors : ℕ) :
    (truthyPrices (analyze_market googleResults gumroadResults
        max_competitors).competitors = [] →
      (analyze_market googleResults gumroadResults max_competitors).avg_price = 0
      ∧ (analyze_market googleResults gumroadResults
          max_competitors).price_range = ⟨999, 0⟩)
    ∧ (truthyPrices (analyze_market googleResults gumroadResults
        max_competitors).competitors ≠ [] →
      (analyze_market googleResults gumroadResults max_competitors).avg_price
        = (truthyPrices (analyze_market googleResults gumroadResults
            max_competitors).competitors).sum
          / (truthyPrices (analyze_market googleResults gumroadResults
            max_competitors).competitors).length
      ∧ (analyze_market googleResults gumroadResults
          max_competitors).price_range.min
        ≤ (analyze_market googleResults gumroadResults
            max_competitors).price_range.max) := by
  simp only [analyze_market]
  constructor
  · intro h
    rw [if_pos h, if_pos h]
    exact ⟨rfl, rfl⟩
  · intro h
    rw [if_neg h, if_neg h]
    exact ⟨rfl, listMin_le_listMax _ h⟩

/-- A Gumroad record with a present non-zero price. -/
def pricedSample : Competitor :=
  ⟨"Priced", "https://priced.example/p", some 10, "gumroad"⟩

/-- Witness for `price_stats_truthy`: both branches discharged at concrete
inputs — an empty market keeps the sentinels, a market with one price 10
reports that average. -/
theorem price_stats_truthy_witness :
    (analyze_market [] [] 20).avg_price = 0
    ∧ (analyze_market [] [] 20).price_range = ⟨999, 0⟩
    ∧ (analyze_market [] [pricedSample] 20).avg_price = 10 := by
  obtain ⟨h1, h2⟩ := (price_stats_truthy [] [] 20).1 rfl
  have hev : truthyPrices ((analyze_market [] [pricedSample] 20).competitors)
      = [10] := by
    norm_num [analyze_market, truthyPrices, pricedSample,
      search_google_competitors, collectResults, dedupByUrl,
      List.filterMap_cons]
  obtain ⟨h3, -⟩ := (price_stats_truthy [] [pricedSample] 20).2
    (by rw [hev]; simp)
  refine ⟨h1, h2, ?_⟩
  rw [h3, hev]
  norm_num

/-- The threshold configuration set in `DiscoveryValidator.__init__`
(defaults: `daily_budget = 15`, `test_duration_days = 3`, `min_clicks = 50`,
`min_ctr = 0.02`, `max_cpa = 15`, `min_conversion_rate = 0.01`). -/
structure DiscoveryValidator where
  daily_budget : ℚ := 15
  test_duration_days : ℕ := 3
  min_clicks : ℕ := 50
  min_ctr : ℚ := 2 / 100
  max_cpa : ℚ := 15
  min_conversion_rate : ℚ := 1 / 100
deriving Repr, DecidableEq

/-- The `metrics` sub-dictionary of `analyze_test_results`; `cpa` lives in
`WithTop ℚ` because the code uses `float('inf')` as the zero-conversion
sentinel. -/
structure TestMetrics where
  ctr : ℚ
  conversion_rate : ℚ
  cpa : WithTop ℚ
  cost_per_click : ℚ
deriving Repr, DecidableEq

/-- The `passed_criteria` sub-dictionary of `analyze_test_results`. -/
structure PassedCriteria where
  sufficient_clicks : Bool
  ctr_good : Bool
  cpa_good : Bool
  conversion_rate_good : Bool
deriving Repr, DecidableEq

/-- The result dictionary of `analyze_test_results`. -/
structure TestResults where
  impressions : ℕ
  clicks : ℕ
  conversions : ℕ
  total_spend : ℚ
  metrics : TestMetrics
  passed_criteria : PassedCriteria
  decision : String
  recommendation : String
deriving Repr, DecidableEq

/-- Model of `sum(results['passed_criteria'].values())`: booleans summed as
integers. -/
def passedCount (p : PassedCriteria) : ℕ :=
  (cond p.sufficient_clicks 1 0) + (cond p.ctr_good 1 0)
    + (cond p.cpa_good 1 0) + (cond p.conversion_rate_good 1 0)

/-- Model of `DiscoveryValidator.analyze_test_results`.  The ratio metrics carry the
code's explicit zero guards (`ctr`, `conversion_rate`, `cost_per_click`
default to 0, `cpa` to `float('inf')`); `decision` is initialised to
`'unknown'` in the code but is always overwritten by the three-way branch
on the criteria count, which is what the model states directly. -/
def analyze_test_results (v : DiscoveryValidator)
    (impressions clicks conversions : ℕ) (total_spend : ℚ) : TestResults :=
  let ctr : ℚ := if 0 < impressions then (clicks : ℚ) / impressions else 0
  let conversion_rate : ℚ :=
    if 0 < clicks then (conversions : ℚ) / clicks else 0
  let cpa : WithTop ℚ :=
    if 0 < conversions then ((total_spend / conversions : ℚ) : WithTop ℚ) else ⊤
  let cost_per_click : ℚ := if 0 < clicks then total_spend / clicks else 0
  let passed : PassedCriteria :=
    { sufficient_clicks := decide (v.min_clicks ≤ clicks)
      ctr_good := decide (v.min_ctr ≤ ctr)
      cpa_good :=
        if 0 < conversions then decide (cpa ≤ (v.max_cpa : WithTop ℚ))
        else false
      conversion_rate_good := decide (v.min_conversion_rate ≤ conversion_rate) }
  let n := passedCount passed
  { impressions := impressions
    clicks := clicks
    conversions := conversions
    total_spend := total_spend
    metrics :=
      { ctr := ctr
        conversion_rate := conversion_rate
        cpa := cpa
        cost_per_click := cost_per_click }
    passed_criteria := passed
    decision := if 3 ≤ n then "GO" else if n = 2 then "OPTIMIZE" else "NO-GO"
    recommendation :=
      if 3 ≤ n then
        "✅ SCALE: Product shows strong potential. Increase budget 3x and continue monitoring."
      else if n = 2 then
        "⚠️ OPTIMIZE: Some promise but needs improvement. Test different ad creative or adjust landing page."
      else
        "🛑 STOP: Product not performing. Consider different niche or market." }

/-- C7: for every input the decision is exactly one of GO / OPTIMIZE /
NO-GO — never the initial `'unknown'` — selected by the count of passed
criteria (`≥ 3 → GO`, `= 2 → OPTIMIZE`, `≤ 1 → NO-GO`), and the
recommendation is the fixed string of the selected branch. -/
theorem decision_trichotomy (v : DiscoveryValidator)
    (impressions clicks conversions : ℕ) (total_spend : ℚ) :
    ((analyze_test_results v impressions clicks conversions
        total_spend).decision
      = if 3 ≤ passedCount (analyze_test_results v impressions clicks
            conversions total_spend).passed_criteria then "GO"
        else if passedCount (analyze_test_results v impressions clicks
            conversions total_spend).passed_criteria = 2 then "OPTIMIZE"
        else "NO-GO")
    ∧ ((analyze_test_results v impressions clicks conversions
        total_spend).decision = "GO"
      ∨ (analyze_test_results v impressions clicks conversions
          total_spend).decision = "OPTIMIZE"
      ∨ (analyze_test_results v impressions clicks conversions
          total_spend).decision = "NO-GO")
    ∧ (analyze_test_results v impressions clicks conversions
        total_spend).decision ≠ "unknown"
    ∧ ((analyze_test_results v impressions clicks conversions
        total_spend).recommendation
      = if 3 ≤ passedCount (analyze_test_results v impressions clicks
            conversions total_spend).passed_criteria then
          "✅ SCALE: Product shows strong potential. Increase budget 3x and continue monitoring."
        else if passedCount (analyze_test_results v impressions clicks
            conversions total_spend).passed_criteria = 2 then
          "⚠️ OPTIMIZE: Some promise but needs improvement. Test different ad creative or adjust landing page."
        else
          "🛑 STOP: Product not performing. Consider different niche or market.") := by
  have hd : (analyze_test_results v impressions clicks conversions
        total_spend).decision
      = if 3 ≤ passedCount (analyze_test_results v impressions clicks
            conversions total_spend).passed_criteria then "GO"
        else if passedCount (analyze_test_results v impressions clicks
            conversions total_spend).passed_criteria = 2 then "OPTIMIZE"
        else "NO-GO" := rfl
  refine ⟨hd, ?_, ?_, rfl⟩
  · rw [hd]
    split
    · exact Or.inl rfl
    · split
      · exact Or.inr (Or.inl rfl)
      · exact Or.inr (Or.inr rfl)
  · rw [hd]
    split
    · decide
    · split
      · decide
      · decide

/-- Witness for `decision_trichotomy` at the GO case of the spec:
`impressions = 5000, clicks = 150, conversions = 10, total_spend = 80`
passes all four criteria and decides GO. -/
theorem decision_trichotomy_witness :
    (analyze_test_results {} 5000 150 10 80).decision = "GO" := by
  have hw8 : ((8 : WithTop ℚ) ≤ (15 : WithTop ℚ)) := by
    exact_mod_cast (by norm_num : (8 : ℚ) ≤ 15)
  rw [(decision_trichotomy {} 5000 150 10 80).1]
  norm_num [analyze_test_results, passedCount, WithTop.coe_le_coe,
    Bool.cond_decide, hw8]

/-- C8: with `conversions = 0` the cpa is the `float('inf')` sentinel `⊤` —
in particular it is neither `0` nor a division error — and the cpa
criterion is false regardless of `total_spend` and the other counts. -/
theorem zero_conversions_cpa_sentinel (v : DiscoveryValidator)
    (impressions clicks : ℕ) (total_spend : ℚ) :
    (analyze_test_results v impressions clicks 0 total_spend).metrics.cpa = ⊤
    ∧ (analyze_test_results v impressions clicks 0
        total_spend).metrics.cpa ≠ ((0 : ℚ) : WithTop ℚ)
    ∧ (analyze_test_results v impressions clicks 0
        total_spend).passed_criteria.cpa_good = false := by
  refine ⟨rfl, ?_, rfl⟩
  show (⊤ : WithTop ℚ) ≠ ((0 : ℚ) : WithTop ℚ)
  simp

/-- Witness for `zero_conversions_cpa_sentinel` at a fully zero test. -/
theorem zero_conversions_cpa_sentinel_witness :
    (analyze_test_results {} 0 0 0 0).metrics.cpa = ⊤
    ∧ (analyze_test_results {} 0 0 0 0).passed_criteria.cpa_good = false :=
  ⟨(zero_conversions_cpa_sentinel {} 0 0 0).1,
   (zero_conversions_cpa_sentinel {} 0 0 0).2.2⟩

/-- The three metric fields `calculate_scale_up_budget` reads from
`current_metrics['metrics']`, in the finite case (a test with at least one
conversion has a finite cpa). -/
structure ScaleMetrics where
  cost_per_click : ℚ
  conversion_rate : ℚ
  cpa : ℚ
deriving Repr, DecidableEq

/-- The recommendation dictionary of `calculate_scale_up_budget`. -/
structure ScaleUpRecommendation where
  current_daily_budget : ℚ
  new_daily_budget : ℚ
  scale_multiplier : ℚ
  estimated_daily_conversions : ℚ
  estimated_daily_cost : ℚ
  estimated_daily_profit : ℚ
deriving Repr, DecidableEq

/-- Model of `DiscoveryValidator.calculate_scale_up_budget`.  `Except.error` models
the `ZeroDivisionError` raised by
`new_daily_budget / current_metrics['metrics']['cost_per_click']` when
`cost_per_click == 0` — the code has no guard on this division. -/
def calculate_scale_up_budget (v : DiscoveryValidator) (m : ScaleMetrics)
    (scale_multiplier : ℚ) : Except String ScaleUpRecommendation :=
  let new_daily_budget := v.daily_budget * scale_multiplier
  if m.cost_per_click = 0 then Except.error "ZeroDivisionError"
  else
    let estimated_clicks_per_day := new_daily_budget / m.cost_per_click
    let estimated_conversions_per_day :=
      estimated_clicks_per_day * m.conversion_rate
    Except.ok
      { current_daily_budget := v.daily_budget
        new_daily_budget := new_daily_budget
        scale_multiplier := scale_multiplier
        estimated_daily_conversions := estimated_conversions_per_day
        estimated_daily_cost := estimated_conversions_per_day * m.cpa
        estimated_daily_profit := 0 }

/-- C9 counterexample: metrics with `cost_per_click = 0` (a test with no
clicks) make `calculate_scale_up_budget` raise `ZeroDivisionError` — it
neither returns 0 estimated clicks nor guards the division. -/
theorem scale_up_zero_cpc_error :
    calculate_scale_up_budget {} ⟨0, 0, 0⟩ 3
      = Except.error "ZeroDivisionError" := rfl

/-- C9 amended: the budget projection formulas hold whenever
`cost_per_click ≠ 0`; when `cost_per_click = 0` the unguarded division
raises `ZeroDivisionError` instead of producing a 0 fallback. -/
theorem scale_up_formulas (v : DiscoveryValidator) (m : ScaleMetrics)
    (scale_multiplier : ℚ) :
    (m.cost_per_click = 0 →
      calculate_scale_up_budget v m scale_multiplier
        = Except.error "ZeroDivisionError")
    ∧ (m.cost_per_click ≠ 0 →
      calculate_scale_up_budget v m scale_multiplier
        = Except.ok
          { current_daily_budget := v.daily_budget
            new_daily_budget := v.daily_budget * scale_multiplier
            scale_multiplier := scale_multiplier
            estimated_daily_conversions :=
              v.daily_budget * scale_multiplier / m.cost_per_click
                * m.conversion_rate
            estimated_daily_cost :=
              v.daily_budget * scale_multiplier / m.cost_per_click
                * m.conversion_rate * m.cpa
            estimated_daily_profit := 0 }) := by
  constructor <;> intro h <;> simp [calculate_scale_up_budget, h]

/-- Witness for `scale_up_formulas`: both hypotheses discharged at concrete
metrics (`cost_per_click` 0 and 1/2). -/
theorem scale_up_formulas_witness :
    calculate_scale_up_budget {} ⟨0, 1 / 20, 8⟩ 3
      = Except.error "ZeroDivisionError"
    ∧ calculate_scale_up_budget {} ⟨1 / 2, 1 / 20, 8⟩ 3
      = Except.ok ⟨15, 45, 3, 9 / 2, 36, 0⟩ := by
  constructor
  · exact (scale_up_formulas {} ⟨0, 1 / 20, 8⟩ 3).1 rfl
  · rw [(scale_up_formulas {} ⟨1 / 2, 1 / 20, 8⟩ 3).2 (by norm_num)]
    norm_num

/-- The competition component of `quick_validation_check`. -/
def competitionScore (competitor_count : ℕ) : ℕ :=
  if competitor_count < 5 then 10
  else if competitor_count < 10 then 8
  else if competitor_count < 20 then 6
  else 3

/-- Model of `demand_scores.get(estimated_demand, 2)` with
`demand_scores = {'low': 0, 'medium': 2, 'high': 4}`. -/
def demandScore (estimated_demand : String) : ℕ :=
  if estimated_demand = "low" then 0
  else if estimated_demand = "medium" then 2
  else if estimated_demand = "high" then 4
  else 2

/-- The result dictionary of `DiscoveryValidator.quick_validation_check`
(the `niche` and `market` echoes are omitted). -/
structure QuickValidation where
  competitor_count : ℕ
  estimated_demand : String
  opportunity_score : ℕ
  recommendation : String
deriving Repr, DecidableEq

/-- Model of `DiscoveryValidator.quick_validation_check`: competition score plus
demand bonus, and the threshold recommendation. -/
def quick_validation_check (competitor_count : ℕ)
    (estimated_demand : String) : QuickValidation :=
  let score := competitionScore competitor_count + demandScore estimated_demand
  { competitor_count := competitor_count
    estimated_demand := estimated_demand
    opportunity_score := score
    recommendation :=
      if 8 ≤ score then "✅ STRONG: High potential. Proceed with discovery test."
      else if 6 ≤ score then
        "⚠️ MODERATE: Some potential. Worth testing with low budget."
      else "🛑 WEAK: Low potential. Consider different niche/market." }

/-- C10: the quick-validation opportunity score is always between 3 and 14
inclusive — the competition component is one of `{10, 8, 6, 3}` and the
demand bonus one of `{0, 2, 4}` (default 2 for an unrecognised level) — and
with fewer than 5 competitors and high demand it equals 14, exceeding the
0–10 scale of the other scorers. -/
theorem quick_validation_score_bounds (competitor_count : ℕ)
    (estimated_demand : String) :
    3 ≤ (quick_validation_check competitor_count
        estimated_demand).opportunity_score
    ∧ (quick_validation_check competitor_count
        estimated_demand).opportunity_score ≤ 14
    ∧ (competitionScore competitor_count = 10
        ∨ competitionScore competitor_count = 8
        ∨ competitionScore competitor_count = 6
        ∨ competitionScore competitor_count = 3)
    ∧ (demandScore estimated_demand = 0 ∨ demandScore estimated_demand = 2
        ∨ demandScore estimated_demand = 4)
    ∧ (competitor_count < 5 →
        (quick_validation_check competitor_count "high").opportunity_score
          = 14) := by
  have hc : competitionScore competitor_count = 10
      ∨ competitionScore competitor_count = 8
      ∨ competitionScore competitor_count = 6
      ∨ competitionScore competitor_count = 3 := by
    unfold competitionScore
    split
    · exact Or.inl rfl
    · split
      · exact Or.inr (Or.inl rfl)
      · split
        · exact Or.inr (Or.inr (Or.inl rfl))
        · exact Or.inr (Or.inr (Or.inr rfl))
  have hdm : demandScore estimated_demand = 0
      ∨ demandScore estimated_demand = 2
      ∨ demandScore estimated_demand = 4 := by
    unfold demandScore
    split
    · exact Or.inl rfl
    · split
      · exact Or.inr (Or.inl rfl)
      · split
        · exact Or.inr (Or.inr rfl)
        · exact Or.inr (Or.inl rfl)
  have hscore : (quick_validation_check competitor_count
      estimated_demand).opportunity_score
      = competitionScore competitor_count + demandScore estimated_demand := rfl
  refine ⟨?_, ?_, hc, hdm, ?_⟩
  · rw [hscore]
    rcases hc with h | h | h | h <;> rcases hdm with h' | h' | h' <;>
      rw [h, h'] <;> norm_num
  · rw [hscore]
    rcases hc with h | h | h | h <;> rcases hdm with h' | h' | h' <;>
      rw [h, h'] <;> norm_num
  · intro hlt
    have h10 : competitionScore competitor_count = 10 := by
      unfold competitionScore
      rw [if_pos hlt]
    show competitionScore competitor_count + demandScore "high" = 14
    rw [h10]
    decide

/-- Witness for `quick_validation_score_bounds`: the bounds at
`competitor_count = 4`, demand `"medium"`, and the high-demand case
reaching 14. -/
theorem quick_validation_score_bounds_witness :
    3 ≤ (quick_validation_check 4 "medium").opportunity_score
    ∧ (quick_validation_check 4 "high").opportunity_score = 14 :=
  ⟨(quick_validation_score_bounds 4 "medium").1,
   (quick_validation_score_bounds 4 "high").2.2.2.2 (by decide)⟩
